import Mathlib

/-
Shallow embedding of `example/keras/keras_imagenet_resnet50.py` (BytePS Keras
ImageNet example).  The script is straight-line configuration code; we model one
process (of a given rank) as a pure function from the parsed arguments and an
environment (cluster size, local rank, per-rank filesystem, lengths of the two
data iterators, and the externally supplied ResNet-50 layer list / config) to a
record of every observable call the script makes: the TensorFlow session
configuration, the resume-epoch computation and broadcast, the model
construction (checkpoint load vs. rebuild-and-compile), the callback list, the
`fit_generator` call and the final `evaluate_generator` call, together with an
event trace recording the order of the phases.
-/

namespace BytePSKeras

/-- Parsed command-line arguments of the script (`parser.add_argument` block).
Float-valued arguments are modelled as rationals. -/
structure Args where
  trainDir : String
  valDir : String
  logDir : String
  checkpointFormat : String
  fp16Pushpull : Bool
  batchSize : Nat
  valBatchSize : Nat
  epochs : Nat
  baseLr : ℚ
  warmupEpochs : ℚ
  momentum : ℚ
  wd : ℚ
deriving Repr, DecidableEq

/-- A BytePS gradient compression algorithm (`bps.Compression`). -/
inductive Compression where
  | none
  | fp16
deriving Repr, DecidableEq

/-- A regularizer value written into a layer config;
`keras.regularizers.l2(wd)` is an L2 regularizer with coefficient `wd`. -/
inductive RegSpec where
  | l2 (coeff : ℚ)
deriving Repr, DecidableEq

/-- The two facts about a Keras layer object that the script inspects:
`hasattr(layer, 'kernel_regularizer')` and
`type(layer) == keras.layers.BatchNormalization`. -/
structure Layer where
  hasKernelRegularizer : Bool
  isBatchNorm : Bool
deriving Repr, DecidableEq

/-- The `layer_config['config']` dictionary of one layer: the three entries the
script may write, plus `rest` standing for every other field. -/
structure LayerConfig where
  kernelRegularizer : Option RegSpec
  momentum : Option ℚ
  epsilon : Option ℚ
  rest : String
deriving Repr, DecidableEq

/-- `keras.optimizers.SGD(lr=..., momentum=...)` configuration. -/
structure SGDConfig where
  lr : ℚ
  momentum : ℚ
deriving Repr, DecidableEq

/-- The optimizer value passed to `model.compile`:
either a bare SGD or `bps.DistributedOptimizer(inner, compression)`. -/
inductive Optimizer where
  | sgd (cfg : SGDConfig)
  | distributed (inner : Optimizer) (comp : Compression)
deriving Repr, DecidableEq

/-- How the model the script trains was obtained: `bps.load_model` from a
checkpoint file (no recompilation), or rebuilt from the edited layer configs
via `Model.from_config` and then compiled with a loss, optimizer and metrics. -/
inductive ModelResult where
  | loaded (file : String) (comp : Compression)
  | compiled (layerConfigs : List LayerConfig) (opt : Optimizer)
      (loss : String) (metrics : List String)
deriving Repr, DecidableEq

/-- One entry of the callback list passed to `fit_generator`. -/
inductive Callback where
  | broadcastGlobalVariables (rootRank : Nat)
  | metricAverage
  | learningRateWarmup (warmupEpochs : ℚ) (verbose : Nat)
  | learningRateSchedule (startEpoch : ℚ) (endEpoch : Option ℚ) (multiplier : ℚ)
  | modelCheckpoint (filepath : String)
  | tensorBoard (logDir : String)
deriving Repr, DecidableEq

/-- The phases the script steps through, in source order. -/
inductive Event where
  | argParse
  | bpsInit
  | gpuSetup
  | resumeScan
  | broadcastResume
  | makeTrainIter
  | makeTestIter
  | buildResnet
  | loadCheckpoint
  | rebuildModel
  | compileModel
  | assembleCallbacks
  | fitGenerator
  | evaluateGenerator
deriving Repr, DecidableEq

/-- The external collaborators of one execution: BytePS cluster facts, the
per-rank filesystem, the iterator lengths reported by Keras, and the layer
list / layer configs of the stock ResNet-50 model. -/
structure Env where
  size : Nat
  sizePos : 0 < size
  localRank : Nat → Nat
  fileExists : Nat → String → Bool
  trainLen : Nat
  testLen : Nat
  resnetLayers : List Layer
  resnetLayerConfigs : List LayerConfig

/-- The `tf.ConfigProto` GPU options the script sets before `K.set_session`. -/
structure SessionConfig where
  allowGrowth : Bool
  visibleDeviceList : String
deriving Repr, DecidableEq

/-- The keyword arguments of `keras.applications.resnet50.ResNet50(weights=None)`. -/
structure ResNet50Init where
  weights : Option String
deriving Repr, DecidableEq

/-- The arguments of the single `model.fit_generator` invocation. -/
structure FitCall where
  stepsPerEpoch : Nat
  epochs : Nat
  verbose : Nat
  workers : Nat
  initialEpoch : Nat
  validationSteps : Nat
  callbacks : List Callback
deriving Repr, DecidableEq

/-- The arguments of the final `model.evaluate_generator` invocation. -/
structure EvalCall where
  steps : Nat
  workers : Nat
deriving Repr, DecidableEq

/-- Everything observable about one process's execution of the script. -/
structure RunResult where
  session : SessionConfig
  resume : Nat
  verbose : Nat
  initialModel : ResNet50Init
  modelResult : ModelResult
  callbacks : List Callback
  fit : FitCall
  eval : EvalCall
  trace : List Event
deriving Repr, DecidableEq

/-- `args.checkpoint_format.format(epoch=epoch)`: substitute the epoch number
for the `\x7bepoch\x7d` placeholder. -/
def ckptFile (args : Args) (epoch : Nat) : String :=
  args.checkpointFormat.replace "{epoch}" (toString epoch)

/-- Python `range(n, 0, -1)` as a list: `[n, n-1, ..., 1]`. -/
def rangeDown : Nat → List Nat
  | 0 => []
  | n + 1 => (n + 1) :: rangeDown n

/-- The checkpoint scan:
`next((e for e in range(args.epochs, 0, -1) if os.path.exists(ckpt(e))), 0)`,
i.e. the first epoch, scanning downward from `args.epochs` to `1`, whose
checkpoint file exists on the local filesystem, and `0` if none exists. -/
def localResumeFromEpoch (args : Args) (fileExists : String → Bool) : Nat :=
  ((rangeDown args.epochs).find? (fun e => fileExists (ckptFile args e))).getD 0

/-- `bps.broadcast(v, root, ...)`: every rank receives the root rank's value. -/
def broadcastFromRoot (root : Nat) (localValue : Nat → Nat) : Nat :=
  localValue root

/-- `compression = bps.Compression.fp16 if args.fp16_pushpull else bps.Compression.none`. -/
def compression (args : Args) : Compression :=
  if args.fp16Pushpull then Compression.fp16 else Compression.none

/-- `loss=keras.losses.categorical_crossentropy` in `model.compile`. -/
def lossName : String := "categorical_crossentropy"

/-- `metrics=['accuracy', 'top_k_categorical_accuracy']` in `model.compile`. -/
def metricNames : List String := ["accuracy", "top_k_categorical_accuracy"]

/-- The body of the rebuild loop for one `(layer, layer_config)` pair: install
an L2 kernel regularizer with coefficient `args.wd` when the layer has a
`kernel_regularizer` attribute, and set `momentum = 0.9`, `epsilon = 1e-5`
when the layer is a `BatchNormalization`. -/
def updateLayerConfig (args : Args) (layer : Layer) (cfg : LayerConfig) : LayerConfig :=
  let cfg1 :=
    if layer.hasKernelRegularizer then
      { cfg with kernelRegularizer := some (RegSpec.l2 args.wd) }
    else cfg
  if layer.isBatchNorm then
    { cfg1 with momentum := some (0.9 : ℚ), epsilon := some (1e-5 : ℚ) }
  else cfg1

/-- The whole rebuild loop
`for layer, layer_config in zip(model.layers, model_config['layers'])`:
the paired prefix of the configs is updated in place, the rest is untouched
(Python's `zip` truncates to the shorter list). -/
def updateLayers (args : Args) : List Layer → List LayerConfig → List LayerConfig
  | _, [] => []
  | [], cs => cs
  | l :: ls, c :: cs => updateLayerConfig args l c :: updateLayers args ls cs

/-- The model-construction section: on rank 0 with a positive resume epoch,
`bps.load_model` from the checkpoint file with the chosen compression;
otherwise rebuild the ResNet-50 from its edited config and compile it with a
`bps.DistributedOptimizer` wrapping SGD at `lr = args.base_lr * bps.size()`. -/
def buildModel (args : Args) (env : Env) (rank : Nat) (resume : Nat) : ModelResult :=
  if 0 < resume ∧ rank = 0 then
    ModelResult.loaded (ckptFile args resume) (compression args)
  else
    let layerConfigs := updateLayers args env.resnetLayers env.resnetLayerConfigs
    let opt := Optimizer.sgd { lr := args.baseLr * (env.size : ℚ), momentum := args.momentum }
    let opt := Optimizer.distributed opt (compression args)
    ModelResult.compiled layerConfigs opt lossName metricNames

/-- The seven BytePS callbacks built unconditionally, in source order. -/
def bytepsCallbacks (args : Args) (verbose : Nat) : List Callback :=
  [Callback.broadcastGlobalVariables 0,
   Callback.metricAverage,
   Callback.learningRateWarmup args.warmupEpochs verbose,
   Callback.learningRateSchedule args.warmupEpochs (some 30) 1,
   Callback.learningRateSchedule 30 (some 60) (1e-1 : ℚ),
   Callback.learningRateSchedule 60 (some 80) (1e-2 : ℚ),
   Callback.learningRateSchedule 80 Option.none (1e-3 : ℚ)]

/-- The full callback list: the BytePS callbacks, then (only on rank 0)
`ModelCheckpoint` followed by `TensorBoard`. -/
def assembledCallbacks (args : Args) (rank : Nat) (verbose : Nat) : List Callback :=
  bytepsCallbacks args verbose ++
    (if rank = 0 then
      [Callback.modelCheckpoint args.checkpointFormat,
       Callback.tensorBoard args.logDir]
     else [])

/-- One process's execution of the whole script, in source order. -/
def scriptRun (args : Args) (env : Env) (rank : Nat) : RunResult :=
  let session : SessionConfig :=
    { allowGrowth := true, visibleDeviceList := toString (env.localRank rank) }
  let resume : Nat :=
    broadcastFromRoot 0 (fun r => localResumeFromEpoch args (env.fileExists r))
  let verbose : Nat := if rank = 0 then 1 else 0
  let initialModel : ResNet50Init := { weights := Option.none }
  let modelResult := buildModel args env rank resume
  let cbs := assembledCallbacks args rank verbose
  let fit : FitCall :=
    { stepsPerEpoch := env.trainLen / env.size
      epochs := args.epochs
      verbose := verbose
      workers := 4
      initialEpoch := resume
      validationSteps := 3 * env.testLen / env.size
      callbacks := cbs }
  let eval : EvalCall := { steps := env.testLen, workers := 4 }
  let trace : List Event :=
    [Event.argParse, Event.bpsInit, Event.gpuSetup, Event.resumeScan,
     Event.broadcastResume, Event.makeTrainIter, Event.makeTestIter,
     Event.buildResnet]
    ++ (if 0 < resume ∧ rank = 0 then [Event.loadCheckpoint]
        else [Event.rebuildModel, Event.compileModel])
    ++ [Event.assembleCallbacks, Event.fitGenerator, Event.evaluateGenerator]
  { session := session
    resume := resume
    verbose := verbose
    initialModel := initialModel
    modelResult := modelResult
    callbacks := cbs
    fit := fit
    eval := eval
    trace := trace }

/-- A concrete argument record used by the witnesses. -/
def sampleArgs : Args :=
  { trainDir := "train"
    valDir := "val"
    logDir := "./logs"
    checkpointFormat := "./checkpoint-{epoch}.h5"
    fp16Pushpull := true
    batchSize := 32
    valBatchSize := 32
    epochs := 2
    baseLr := 1/80
    warmupEpochs := 5
    momentum := 9/10
    wd := 1/20000 }

/-- A concrete environment (no checkpoint file exists anywhere). -/
def sampleEnv : Env :=
  { size := 2
    sizePos := by decide
    localRank := fun r => r
    fileExists := fun _ _ => false
    trainLen := 10
    testLen := 4
    resnetLayers := [⟨true, false⟩, ⟨false, true⟩]
    resnetLayerConfigs :=
      [⟨Option.none, Option.none, Option.none, "conv"⟩,
       ⟨Option.none, some (99/100), some (1/1000), "bn"⟩] }

/-- The same environment with every checkpoint file present on every rank. -/
def sampleEnvCk : Env :=
  { sampleEnv with fileExists := fun _ _ => true }

/-- Whether a callback is a `keras.callbacks.ModelCheckpoint`. -/
def isModelCheckpoint : Callback → Bool
  | Callback.modelCheckpoint _ => true
  | _ => false

/-- Whether a callback is a `keras.callbacks.TensorBoard`. -/
def isTensorBoard : Callback → Bool
  | Callback.tensorBoard _ => true
  | _ => false

/-- `List.find?` over `rangeDown n` either finds nothing (and then no element of
`[1..n]` satisfies the predicate) or returns the greatest element of `[1..n]`
satisfying it. -/
theorem find_rangeDown_spec (p : Nat → Bool) (n : Nat) :
    ((rangeDown n).find? p = Option.none ∧ ∀ e, 1 ≤ e → e ≤ n → p e = false) ∨
    (∃ r, (rangeDown n).find? p = some r ∧ 1 ≤ r ∧ r ≤ n ∧ p r = true ∧
      ∀ e, e ≤ n → p e = true → e ≤ r) := by
  induction n with
  | zero =>
    exact Or.inl ⟨rfl, fun e h1 h2 => absurd (Nat.le_trans h1 h2) (by omega)⟩
  | succ n ih =>
    cases hp : p (n + 1) with
    | true =>
      refine Or.inr ⟨n + 1, ?_, by omega, Nat.le_refl _, hp, fun e he _ => he⟩
      simp [rangeDown, List.find?_cons, hp]
    | false =>
      have hfind : (rangeDown (n + 1)).find? p = (rangeDown n).find? p := by
        simp [rangeDown, List.find?_cons, hp]
      rcases ih with ⟨hnone, hall⟩ | ⟨r, hr, h1, h2, h3, hmax⟩
      · refine Or.inl ⟨hfind.trans hnone, fun e he1 he2 => ?_⟩
        rcases Nat.lt_or_ge e (n + 1) with h | h
        · exact hall e he1 (by omega)
        · have he : e = n + 1 := by omega
          rw [he]; exact hp
      · refine Or.inr ⟨r, hfind.trans hr, h1, by omega, h3, fun e he hpe => ?_⟩
        rcases Nat.lt_or_ge e (n + 1) with h | h
        · exact hmax e (by omega) hpe
        · have he : e = n + 1 := by omega
          rw [he] at hpe; rw [hp] at hpe; exact absurd hpe (by simp)

/-- Claim C3: before the broadcast, `resume_from_epoch` equals the largest epoch
`e` with `1 ≤ e ≤ args.epochs` whose checkpoint file
`args.checkpoint_format.format(epoch=e)` exists, and `0` when no such epoch
exists (the scan runs from `args.epochs` down to `1` and takes the first hit,
which is exactly the greatest existing epoch). -/
theorem resume_scan_greatest_existing_epoch (args : Args) (fs : String → Bool) :
    (localResumeFromEpoch args fs = 0 ∧
      ∀ e, 1 ≤ e → e ≤ args.epochs → fs (ckptFile args e) = false) ∨
    (1 ≤ localResumeFromEpoch args fs ∧
      localResumeFromEpoch args fs ≤ args.epochs ∧
      fs (ckptFile args (localResumeFromEpoch args fs)) = true ∧
      ∀ e, e ≤ args.epochs → fs (ckptFile args e) = true →
        e ≤ localResumeFromEpoch args fs) := by
  rcases find_rangeDown_spec (fun e => fs (ckptFile args e)) args.epochs with
    ⟨hnone, hall⟩ | ⟨r, hr, h1, h2, h3, hmax⟩
  · left
    refine ⟨?_, hall⟩
    simp [localResumeFromEpoch, hnone]
  · right
    have hres : localResumeFromEpoch args fs = r := by
      simp [localResumeFromEpoch, hr]
    rw [hres]
    exact ⟨h1, h2, h3, hmax⟩

/-- Witness for C3: with every file present and `epochs = 2`, the scan lands in
the range `[1 .. epochs]`. -/
theorem resume_scan_greatest_existing_epoch_witness :
    1 ≤ localResumeFromEpoch sampleArgs (fun _ => true) ∧
    localResumeFromEpoch sampleArgs (fun _ => true) ≤ sampleArgs.epochs := by
  rcases resume_scan_greatest_existing_epoch sampleArgs (fun _ => true) with
    ⟨_, hall⟩ | ⟨h1, h2, _⟩
  · have h := hall 1 (by decide) (by decide)
    simp at h
  · exact ⟨h1, h2⟩

/-- Claim C1: when the (broadcast) resume epoch is `0` or the rank is not `0`,
the model is compiled with `bps.DistributedOptimizer` wrapping SGD at
`lr = args.base_lr * bps.size()` and `momentum = args.momentum`; in the
remaining case the model is loaded via `bps.load_model` from the checkpoint
file of the resume epoch and not recompiled; in both cases the compression is
`fp16` exactly when `--fp16-pushpull` was given. -/
theorem optimizer_wrap_or_checkpoint_load (args : Args) (env : Env) (rank : Nat) :
    ((scriptRun args env rank).resume = 0 ∨ rank ≠ 0 →
      (scriptRun args env rank).modelResult =
        ModelResult.compiled
          (updateLayers args env.resnetLayers env.resnetLayerConfigs)
          (Optimizer.distributed
            (Optimizer.sgd { lr := args.baseLr * (env.size : ℚ), momentum := args.momentum })
            (compression args))
          lossName metricNames) ∧
    (0 < (scriptRun args env rank).resume ∧ rank = 0 →
      (scriptRun args env rank).modelResult =
        ModelResult.loaded (ckptFile args ((scriptRun args env rank).resume))
          (compression args)) ∧
    (compression args = Compression.fp16 ↔ args.fp16Pushpull = true) := by
  refine ⟨?_, ?_, ?_⟩
  · intro h
    have hcond : ¬(0 < (scriptRun args env rank).resume ∧ rank = 0) := by
      rcases h with h | h
      · intro hc; omega
      · intro hc; exact h hc.2
    simp only [scriptRun] at hcond ⊢
    simp [buildModel, hcond]
  · intro h
    simp only [scriptRun] at h ⊢
    simp [buildModel, h]
  · cases hf : args.fp16Pushpull <;> simp [compression, hf]

/-- Witness for C1: on rank `0` with every checkpoint present, the model is
loaded from the checkpoint of the resume epoch. -/
theorem optimizer_wrap_or_checkpoint_load_witness :
    (0 < (scriptRun sampleArgs sampleEnvCk 0).resume ∧ 0 = 0) ∧
    (scriptRun sampleArgs sampleEnvCk 0).modelResult =
      ModelResult.loaded (ckptFile sampleArgs ((scriptRun sampleArgs sampleEnvCk 0).resume))
        (compression sampleArgs) :=
  ⟨⟨by decide, rfl⟩,
   (optimizer_wrap_or_checkpoint_load sampleArgs sampleEnvCk 0).2.1 ⟨by decide, rfl⟩⟩

/-- Claim C2: the `initial_epoch` passed to `fit_generator` is the broadcast of
rank 0's locally scanned resume epoch, on every rank; and the whole run is
unaffected by the filesystem of any rank other than `0` (the locally scanned
value is overwritten by the broadcast before any use). -/
theorem initial_epoch_from_rank0_broadcast (args : Args) (env : Env) (rank : Nat) :
    (scriptRun args env rank).fit.initialEpoch =
      localResumeFromEpoch args (env.fileExists 0) ∧
    ∀ f g : Nat → String → Bool, f 0 = g 0 →
      scriptRun args { env with fileExists := f } rank =
        scriptRun args { env with fileExists := g } rank := by
  refine ⟨rfl, fun f g h => ?_⟩
  simp [scriptRun, buildModel, broadcastFromRoot, h]

/-- Witness for C2: two filesystems agreeing on rank `0` but differing on rank
`1` yield identical runs. -/
theorem initial_epoch_from_rank0_broadcast_witness :
    ((fun r (_ : String) => decide (0 < r)) 0 = (fun (_ : Nat) (_ : String) => false) 0) ∧
    scriptRun sampleArgs { sampleEnv with fileExists := fun r _ => decide (0 < r) } 1 =
      scriptRun sampleArgs { sampleEnv with fileExists := fun _ _ => false } 1 :=
  ⟨rfl, (initial_epoch_from_rank0_broadcast sampleArgs sampleEnv 1).2 _ _ rfl⟩

/-- Claim C4: `steps_per_epoch = len(train_iter) // bps.size()` and
`validation_steps = 3 * len(test_iter) // bps.size()`, with `//` being floor
division (characterized by the two-sided multiplication bounds). -/
theorem per_worker_step_counts (args : Args) (env : Env) (rank : Nat) :
    (scriptRun args env rank).fit.stepsPerEpoch = env.trainLen / env.size ∧
    (scriptRun args env rank).fit.validationSteps = 3 * env.testLen / env.size ∧
    env.size * (scriptRun args env rank).fit.stepsPerEpoch ≤ env.trainLen ∧
    env.trainLen < env.size * ((scriptRun args env rank).fit.stepsPerEpoch + 1) ∧
    env.size * (scriptRun args env rank).fit.validationSteps ≤ 3 * env.testLen ∧
    3 * env.testLen < env.size * ((scriptRun args env rank).fit.validationSteps + 1) := by
  have hs := env.sizePos
  have d1 := Nat.div_add_mod env.trainLen env.size
  have m1 := Nat.mod_lt env.trainLen hs
  have d2 := Nat.div_add_mod (3 * env.testLen) env.size
  have m2 := Nat.mod_lt (3 * env.testLen) hs
  refine ⟨rfl, rfl, ?_, ?_, ?_, ?_⟩
  · show env.size * (env.trainLen / env.size) ≤ env.trainLen
    omega
  · show env.trainLen < env.size * (env.trainLen / env.size + 1)
    rw [Nat.mul_succ]
    omega
  · show env.size * (3 * env.testLen / env.size) ≤ 3 * env.testLen
    omega
  · show 3 * env.testLen < env.size * (3 * env.testLen / env.size + 1)
    rw [Nat.mul_succ]
    omega

/-- Claim C6: the TensorFlow session config pins the process to the GPU whose
index is its local rank (`visible_device_list = str(bps.local_rank())`,
`allow_growth = True`), and the session setup happens before the data iterators
are built and before training starts. -/
theorem gpu_pinned_to_local_rank (args : Args) (env : Env) (rank : Nat) :
    (scriptRun args env rank).session.visibleDeviceList =
      toString (env.localRank rank) ∧
    (scriptRun args env rank).session.allowGrowth = true ∧
    [Event.gpuSetup, Event.makeTrainIter].Sublist (scriptRun args env rank).trace ∧
    [Event.gpuSetup, Event.makeTestIter].Sublist (scriptRun args env rank).trace ∧
    [Event.gpuSetup, Event.fitGenerator].Sublist (scriptRun args env rank).trace := by
  refine ⟨rfl, rfl, ?_, ?_, ?_⟩ <;>
    · simp only [scriptRun]
      split <;> decide

/-- Claim C5: exactly one Keras model is constructed
(`ResNet50(weights=None)`), afterwards either reloaded from a checkpoint or
rebuilt from that model's own (edited) config, and `fit_generator` is invoked
exactly once, with `epochs = args.epochs` and the assembled callback list. -/
theorem single_model_single_fit (args : Args) (env : Env) (rank : Nat) :
    (scriptRun args env rank).initialModel.weights = Option.none ∧
    (scriptRun args env rank).fit.epochs = args.epochs ∧
    (scriptRun args env rank).fit.callbacks = (scriptRun args env rank).callbacks ∧
    (scriptRun args env rank).trace.count Event.buildResnet = 1 ∧
    (scriptRun args env rank).trace.count Event.fitGenerator = 1 ∧
    ((∃ f c, (scriptRun args env rank).modelResult = ModelResult.loaded f c) ∨
     (∃ o, (scriptRun args env rank).modelResult =
        ModelResult.compiled (updateLayers args env.resnetLayers env.resnetLayerConfigs)
          o lossName metricNames)) := by
  refine ⟨rfl, rfl, rfl, ?_, ?_, ?_⟩
  · simp only [scriptRun]
    split <;> decide
  · simp only [scriptRun]
    split <;> decide
  · simp only [scriptRun, buildModel]
    split
    · exact Or.inl ⟨_, _, rfl⟩
    · exact Or.inr ⟨_, rfl⟩

/-- Claim C7: the callback list starts with
`BroadcastGlobalVariablesCallback(0)`, then `MetricAverageCallback`, then the
warmup callback and the four schedule callbacks; `ModelCheckpoint` and
`TensorBoard` are appended, in that order, exactly when the rank is `0`; on any
other rank the list has exactly 7 entries and no checkpoint or TensorBoard
callback; and when TensorBoard is present, `MetricAverageCallback` precedes it. -/
theorem callback_list_structure (args : Args) (env : Env) (rank : Nat) :
    (scriptRun args env rank).callbacks.take 7 =
      [Callback.broadcastGlobalVariables 0,
       Callback.metricAverage,
       Callback.learningRateWarmup args.warmupEpochs ((scriptRun args env rank).verbose),
       Callback.learningRateSchedule args.warmupEpochs (some 30) 1,
       Callback.learningRateSchedule 30 (some 60) (1e-1 : ℚ),
       Callback.learningRateSchedule 60 (some 80) (1e-2 : ℚ),
       Callback.learningRateSchedule 80 Option.none (1e-3 : ℚ)] ∧
    (rank = 0 →
      (scriptRun args env rank).callbacks =
        bytepsCallbacks args 1 ++
          [Callback.modelCheckpoint args.checkpointFormat,
           Callback.tensorBoard args.logDir]) ∧
    (rank ≠ 0 →
      (scriptRun args env rank).callbacks.length = 7 ∧
      ∀ c ∈ (scriptRun args env rank).callbacks,
        isModelCheckpoint c = false ∧ isTensorBoard c = false) ∧
    (rank = 0 →
      [Callback.metricAverage, Callback.tensorBoard args.logDir].Sublist
        (scriptRun args env rank).callbacks) := by
  refine ⟨?_, ?_, ?_, ?_⟩
  · by_cases h : rank = 0 <;>
      simp [scriptRun, assembledCallbacks, bytepsCallbacks, h]
  · intro h
    simp [scriptRun, assembledCallbacks, bytepsCallbacks, h]
  · intro h
    constructor
    · simp [scriptRun, assembledCallbacks, bytepsCallbacks, h]
    · intro c hc
      simp [scriptRun, assembledCallbacks, bytepsCallbacks, h] at hc
      rcases hc with rfl | rfl | rfl | rfl | rfl | rfl | rfl <;>
        simp [isModelCheckpoint, isTensorBoard]
  · intro h
    simp only [scriptRun, assembledCallbacks, bytepsCallbacks, h,
      if_pos, List.cons_append, List.nil_append]
    apply List.Sublist.cons
    apply List.Sublist.cons₂
    apply List.Sublist.cons
    apply List.Sublist.cons
    apply List.Sublist.cons
    apply List.Sublist.cons
    apply List.Sublist.cons
    apply List.Sublist.cons
    apply List.Sublist.cons₂
    exact List.nil_sublist []

/-- Witness for C7: on rank `0` with the sample arguments the callback list
has the seven BytePS callbacks plus the two rank-0-only callbacks. -/
theorem callback_list_structure_witness :
    (scriptRun sampleArgs sampleEnv 0).callbacks.length = 9 := by
  have h := (callback_list_structure sampleArgs sampleEnv 0).2.1 rfl
  rw [h]
  rfl

/-- Claim C8: in the rebuild branch, for each `(layer, layer_config)` pair the
loop installs an L2 regularizer with coefficient `args.wd` exactly when the
layer has a `kernel_regularizer` attribute, sets `momentum = 0.9` and
`epsilon = 1e-5` exactly when the layer is a `BatchNormalization`, and leaves
every other field — and every unpaired layer config — unchanged. -/
theorem rebuild_layer_config_edits (args : Args) (ls : List Layer)
    (cs : List LayerConfig) (i : Nat) :
    (updateLayers args ls cs).get? i =
      match ls.get? i, cs.get? i with
      | some l, some c =>
          some ⟨(if l.hasKernelRegularizer then some (RegSpec.l2 args.wd)
                 else c.kernelRegularizer),
                (if l.isBatchNorm then some (0.9 : ℚ) else c.momentum),
                (if l.isBatchNorm then some (1e-5 : ℚ) else c.epsilon),
                c.rest⟩
      | Option.none, some c => some c
      | _, Option.none => Option.none := by
  induction ls generalizing cs i with
  | nil =>
    cases cs with
    | nil => cases i <;> simp [updateLayers]
    | cons c cs =>
      cases i with
      | zero => simp [updateLayers]
      | succ n =>
        simp only [updateLayers, List.get?_cons_succ]
        cases cs.get? n <;> rfl
  | cons l ls ih =>
    cases cs with
    | nil => cases i <;> simp [updateLayers]
    | cons c cs =>
      cases i with
      | zero =>
        simp only [updateLayers, List.get?_cons_zero]
        cases hK : l.hasKernelRegularizer <;> cases hB : l.isBatchNorm <;>
          simp [updateLayerConfig, hK, hB]
      | succ i =>
        simp only [updateLayers, List.get?_cons_succ]
        exact ih cs i

/-- Claim C9: the phases run in the fixed source order, each exactly once:
argument parsing, BytePS init, GPU session setup, resume-epoch scan, broadcast,
training iterator before validation iterator, callback assembly, one
`fit_generator` call, and finally one evaluation pass. -/
theorem phase_order (args : Args) (env : Env) (rank : Nat) :
    [Event.argParse, Event.bpsInit, Event.gpuSetup, Event.resumeScan,
     Event.broadcastResume, Event.makeTrainIter, Event.makeTestIter,
     Event.assembleCallbacks, Event.fitGenerator,
     Event.evaluateGenerator].Sublist (scriptRun args env rank).trace ∧
    (scriptRun args env rank).trace.count Event.argParse = 1 ∧
    (scriptRun args env rank).trace.count Event.bpsInit = 1 ∧
    (scriptRun args env rank).trace.count Event.gpuSetup = 1 ∧
    (scriptRun args env rank).trace.count Event.resumeScan = 1 ∧
    (scriptRun args env rank).trace.count Event.broadcastResume = 1 ∧
    (scriptRun args env rank).trace.count Event.makeTrainIter = 1 ∧
    (scriptRun args env rank).trace.count Event.makeTestIter = 1 ∧
    (scriptRun args env rank).trace.count Event.assembleCallbacks = 1 ∧
    (scriptRun args env rank).trace.count Event.fitGenerator = 1 ∧
    (scriptRun args env rank).trace.count Event.evaluateGenerator = 1 := by
  simp only [scriptRun]
  split <;> decide

end BytePSKeras
